import Mathlib

/-!
Shallow embedding of the `websocket_mcp` repository
(`src/websocket_mcp/mcp_client.py`, `src/websocket_mcp/mcp_server.py`),
a minimal JSON-RPC 2.0 protocol engine over a WebSocket transport.

Messages are Python dicts; we embed them as a structure of optional
fields (`Option` = key absent).  Python `None` as a *value* is
`Value.null`.  `asyncio.Future` settlement is made observable as a list
of `ClientEvent`s emitted by `MCPClient.receive`; outbound traffic is
made observable as the list of messages an operation passes to the
transport `send`.  Async handlers are embedded as pure functions
returning the messages they pass to `MCPServer.send_message` together
with an `Except` outcome (`.error s` models a raised exception whose
`str()` is `s`).
-/

/-- JSON values, as produced by `json.loads`. -/
inductive Value where
  | null : Value
  | bool (b : Bool) : Value
  | int (n : Int) : Value
  | str (s : String) : Value
  | arr (xs : List Value) : Value
  | obj (fields : List (String × Value)) : Value


/-- Python `d.get(key, dflt)` on a JSON value: defined on mappings; the
repository only calls it with mapping arguments. -/
def Value.getD (v : Value) (key : String) (dflt : Value) : Value :=
  match v with
  | .obj fields => (fields.lookup key).getD dflt
  | _ => dflt

/-- Python `v is not None`, as a Bool. -/
def Value.isNull : Value → Bool
  | .null => true
  | _ => false

/-- One JSON-RPC message (a Python dict).  A field is `none` when the
key is absent; a present key holding Python `None` is `some .null`. -/
structure Msg where
  jsonrpc : Option String := none
  id : Option Value := none
  method : Option String := none
  params : Option Value := none
  result : Option Value := none
  error : Option Value := none


/-- Constant `JSON_RPC_VERSION = "2.0"` (both files). -/
def JSON_RPC_VERSION : String := "2.0"

/-- Error code `METHOD_NOT_FOUND = -32601` (mcp_server.py). -/
def METHOD_NOT_FOUND : Int := -32601

/-- Error code `INTERNAL_ERROR = -32603` (mcp_server.py). -/
def INTERNAL_ERROR : Int := -32603

/-- Function `create_request` of mcp_client.py. -/
def create_request (method : String) (params : Value) (id : Value) : Msg :=
  { jsonrpc := some JSON_RPC_VERSION, id := some id,
    method := some method, params := some params }

/-- Function `create_notification` of mcp_client.py. -/
def create_notification (method : String) (params : Value) : Msg :=
  { jsonrpc := some JSON_RPC_VERSION, method := some method,
    params := some params }

/-- Function `create_response` of mcp_server.py (`id` may be Python
`None`, giving an `"id": null` key). -/
def create_response (id : Value) (result : Value) : Msg :=
  { jsonrpc := some JSON_RPC_VERSION, id := some id, result := some result }

/-- Function `create_error_response` of mcp_server.py: the error field
is the dict `{code, message, data}`. -/
def create_error_response (id : Value) (code : Int) (message : String)
    (data : Value) : Msg :=
  { jsonrpc := some JSON_RPC_VERSION, id := some id,
    error := some (.obj [("code", .int code), ("message", .str message),
                         ("data", data)]) }

/-- Observable effect of `MCPClient.receive` on a pending future or on
the built-in notification prints. -/
inductive ClientEvent where
  | settledOk (id : Int) (r : Value) : ClientEvent
  | settledErr (id : Int) (e : Value) : ClientEvent
  | chunk (params : Value) : ClientEvent
  | complete (params : Value) : ClientEvent


/-- Whether an event is the `stream_data_chunk` print. -/
def ClientEvent.isChunk : ClientEvent → Bool
  | .chunk _ => true
  | _ => false

/-- State of class `MCPClient` (mcp_client.py): `pending` maps request
id to an asyncio.Future; we keep the set of unsettled ids, settlement
being reported as `ClientEvent`s.  `send` is bound externally and is
modeled by returning the messages an operation sends. -/
structure MCPClient where
  name : String
  version : String
  capabilities : Value
  pending : List Int
  next_id : Int


/-- Constructor `MCPClient.__init__`. -/
def MCPClient.init (name version : String) (capabilities : Value) : MCPClient :=
  { name := name, version := version, capabilities := capabilities,
    pending := [], next_id := 1 }

/-- Method `MCPClient.request` up to its suspension point: allocates the
next id, registers a waiter in `pending`, and sends a Request.  Returns
(new state, sent message, allocated id). -/
def MCPClient.request (st : MCPClient) (method : String) (params : Value) :
    MCPClient × Msg × Int :=
  let req_id := st.next_id
  let st1 : MCPClient := { st with next_id := st.next_id + 1 }
  let req_msg := create_request method params (.int req_id)
  let st2 : MCPClient := { st1 with pending := req_id :: st1.pending }
  (st2, req_msg, req_id)

/-- Method `MCPClient.connect` up to its suspension point: binds the
transport, allocates an id, sends the `initialize` Request and registers
the waiter.  (The `initialized` notification follows the awaited
response and allocates no id.) -/
def MCPClient.connect (st : MCPClient) : MCPClient × Msg × Int :=
  let init_id := st.next_id
  let st1 : MCPClient := { st with next_id := st.next_id + 1 }
  let init_request := create_request "initialize"
    (.obj [("clientName", .str st.name), ("clientVersion", .str st.version),
           ("capabilities", st.capabilities)]) (.int init_id)
  let st2 : MCPClient := { st1 with pending := init_id :: st1.pending }
  (st2, init_request, init_id)

/-- Method `MCPClient.receive` (mcp_client.py lines 66-93).  A message
with an `"id"` key is treated as a response: a matching pending future
is popped, then settled with `result` (`fut.set_result`) or with the
whole `error` value (`fut.set_exception(Exception(message["error"]))`);
note the pop happens before the result/error check.  Otherwise a
`"method"` key makes it a notification dispatched to the built-in
prints.  (The `isinstance(message, dict)` guard is the domain of `Msg`.) -/
def MCPClient.receive (st : MCPClient) (m : Msg) : MCPClient × List ClientEvent :=
  if m.jsonrpc ≠ some JSON_RPC_VERSION then (st, [])
  else match m.id with
  | some idv =>
    match idv with
    | .int n =>
      if n ∈ st.pending then
        let st1 : MCPClient := { st with pending := st.pending.erase n }
        match m.result with
        | some r => (st1, [.settledOk n r])
        | none =>
          match m.error with
          | some e => (st1, [.settledErr n e])
          | none => (st1, [])
      else (st, [])
    | _ => (st, [])
  | none =>
    match m.method with
    | some method =>
      let params := m.params.getD (.obj [])
      if method = "stream_data_chunk" then (st, [.chunk params])
      else if method = "stream_complete" then (st, [.complete params])
      else (st, [])
    | none => (st, [])

/-- Sequential client operations that allocate request ids. -/
inductive ClientOp where
  | connectOp : ClientOp
  | requestOp (method : String) (params : Value) : ClientOp

/-- Run a sequence of id-allocating client calls, collecting the
allocated request ids in order. -/
def MCPClient.runOps (st : MCPClient) : List ClientOp → MCPClient × List Int
  | [] => (st, [])
  | op :: rest =>
    let next :=
      match op with
      | .connectOp => st.connect
      | .requestOp method params => st.request method params
    let tail := next.1.runOps rest
    (tail.1, next.2.2 :: tail.2)

/-- Feed a list of messages to `MCPClient.receive` one by one (the
dispatch loop), collecting the emitted events in order. -/
def MCPClient.processAll (st : MCPClient) : List Msg → MCPClient × List ClientEvent
  | [] => (st, [])
  | m :: rest =>
    let step := st.receive m
    let tail := step.1.processAll rest
    (tail.1, step.2 ++ tail.2)

/-- A single quote character, for the f-string in the MethodNotFound
message text. -/
def squote : String := String.mk [Char.ofNat 39]

/-- Embedded request handler: an async callable taking `params`; returns
the messages it passes to `MCPServer.send_message` while running, and
either a result value or a raised exception text (`str(e)`). -/
abbrev ReqHandler : Type := Value → List Msg × Except String Value

/-- Embedded notification handler: like `ReqHandler` but returns no
value (Python `None`). -/
abbrev NoteHandler : Type := Value → List Msg × Except String Unit

/-- State of class `MCPServer` (mcp_server.py).  `send` is `None` until
a transport is connected (`Option Unit`: we track boundness; the sends
themselves are observed as returned message lists).  The
`asyncio.Event` `shutdown_event` is embedded as its `is_set()` Bool. -/
structure MCPServer where
  name : String
  version : String
  capabilities : Value
  request_handlers : List (String × ReqHandler)
  notification_handlers : List (String × NoteHandler)
  send : Option Unit
  shutdown_event : Bool

/-- Constructor `MCPServer.__init__`. -/
def MCPServer.init (name version : String) (capabilities : Value) : MCPServer :=
  { name := name, version := version, capabilities := capabilities,
    request_handlers := [], notification_handlers := [],
    send := none, shutdown_event := false }

/-- Method `MCPServer.register_request_handler`: dict assignment;
cons plus first-match lookup gives the same last-write-wins map. -/
def MCPServer.register_request_handler (st : MCPServer) (method : String)
    (handler : ReqHandler) : MCPServer :=
  { st with request_handlers := (method, handler) :: st.request_handlers }

/-- Method `MCPServer.register_notification_handler`. -/
def MCPServer.register_notification_handler (st : MCPServer) (method : String)
    (handler : NoteHandler) : MCPServer :=
  { st with notification_handlers := (method, handler) :: st.notification_handlers }

/-- Method `MCPServer.send_message`: `if self.send: await self.send(message)`
— a silent no-op while no transport is bound. -/
def MCPServer.send_message (st : MCPServer) (m : Msg) : List Msg :=
  match st.send with
  | some _ => [m]
  | none => []

/-- Pass each message a handler produced through `send_message` in order
(the handler body calls `await server.send_message(...)` per message). -/
def MCPServer.sendAll (st : MCPServer) (msgs : List Msg) : List Msg :=
  (msgs.map st.send_message).flatten

/-- Method `MCPServer.receive` (mcp_server.py lines 54-120).  Returns
the new state and the messages actually written to the transport.
Built-ins `initialize` and `shutdown` are matched on the method name
alone, before the `req_id is not None` test; other messages split into
requests (id present and non-null) dispatched through
`request_handlers` — unknown method gives a `METHOD_NOT_FOUND` error
response, a raising handler an `INTERNAL_ERROR` one — and notifications
dispatched through `notification_handlers` with failures swallowed.
(The `isinstance(message, dict)` guard is the domain of `Msg`.) -/
def MCPServer.receive (st : MCPServer) (m : Msg) : MCPServer × List Msg :=
  if m.jsonrpc ≠ some JSON_RPC_VERSION then (st, [])
  else match m.method with
  | some method =>
    let req_id : Value := m.id.getD .null
    let params := m.params.getD (.obj [])
    if method = "initialize" then
      let result := Value.obj [("serverName", .str st.name),
        ("serverVersion", .str st.version), ("capabilities", st.capabilities)]
      (st, st.send_message (create_response req_id result))
    else if method = "shutdown" then
      let out := st.send_message
        (create_response req_id (.obj [("message", .str "Server shutting down")]))
      ({ st with shutdown_event := true }, out)
    else if req_id.isNull = false then
      match st.request_handlers.lookup method with
      | some handler =>
        match handler params with
        | (sent, .ok result) =>
          (st, st.sendAll sent ++ st.send_message (create_response req_id result))
        | (sent, .error e) =>
          (st, st.sendAll sent ++
            st.send_message (create_error_response req_id INTERNAL_ERROR e .null))
      | none =>
        (st, st.send_message (create_error_response req_id METHOD_NOT_FOUND
          ("Method " ++ squote ++ method ++ squote ++ " not found") .null))
    else
      match st.notification_handlers.lookup method with
      | some handler => (st, st.sendAll (handler params).1)
      | none => (st, [])
  | none => (st, [])

/-- Every state-touching operation of class `MCPServer`. -/
inductive ServerOp where
  | regReq (method : String) (handler : ReqHandler) : ServerOp
  | regNote (method : String) (handler : NoteHandler) : ServerOp
  | recv (m : Msg) : ServerOp
  | sendMsg (m : Msg) : ServerOp

/-- Apply one `MCPServer` operation. -/
def MCPServer.applyOp (st : MCPServer) : ServerOp → MCPServer × List Msg
  | .regReq method handler => (st.register_request_handler method handler, [])
  | .regNote method handler => (st.register_notification_handler method handler, [])
  | .recv m => st.receive m
  | .sendMsg m => (st, st.send_message m)

/-- Demo handler `list_resources_handler` of `websocket_server_handler`
(mcp_server.py lines 170-171). -/
def list_resources_handler (_params : Value) : List Msg × Except String Value :=
  ([], .ok (.arr [.obj [("uri", .str "example://resource"),
                        ("name", .str "Example Resource")]]))

/-- Demo handler `stream_data_handler` of `websocket_server_handler`
(mcp_server.py lines 175-191): sends five `stream_data_chunk`
notifications then one `stream_complete`, and returns an
acknowledgement. -/
def stream_data_handler (params : Value) : List Msg × Except String Value :=
  let stream_id := params.getD "stream_id" (.str "default")
  let chunks := (List.range 5).map (fun i =>
    ({ jsonrpc := some JSON_RPC_VERSION, method := some "stream_data_chunk",
       params := some (.obj [("stream_id", stream_id),
         ("chunk", .str ("Data chunk " ++ toString (i + 1)))]) } : Msg))
  let complete_message : Msg :=
    { jsonrpc := some JSON_RPC_VERSION, method := some "stream_complete",
      params := some (.obj [("stream_id", stream_id),
        ("message", .str "Stream complete")]) }
  (chunks ++ [complete_message], .ok (.obj [("status", .str "streaming started")]))

/-- Body of `receive_loop` (identical in `websocket_transport_client`,
mcp_client.py lines 107-117, and `websocket_transport_server`,
mcp_server.py lines 137-148): read frames until the connection closes;
a frame failing `json.loads` (`decode frame = none`) is skipped with
`continue`; a decoded message is put on the queue. -/
def receive_loop (decode : String → Option Value) : List String → List Value
  | [] => []
  | frame :: rest =>
    match decode frame with
    | none => receive_loop decode rest
    | some m => m :: receive_loop decode rest

/-! Helper lemmas shared by the claim theorems. -/

theorem MCPServer.sendAll_of_send_none (st : MCPServer) (h : st.send = none)
    (msgs : List Msg) : st.sendAll msgs = [] := by
  simp [MCPServer.sendAll, MCPServer.send_message, h]

theorem MCPServer.sendAll_of_send_some (st : MCPServer) (h : st.send = some ())
    (msgs : List Msg) : st.sendAll msgs = msgs := by
  induction msgs with
  | nil => rfl
  | cons m rest ih =>
    simpa [MCPServer.sendAll, MCPServer.send_message, h, List.map_cons] using ih

/-- The state returned by `MCPServer.receive` is either unchanged or the
input state with the shutdown flag raised: no branch ever lowers the
flag or touches any other field. -/
theorem MCPServer.receive_fst (st : MCPServer) (m : Msg) :
    (st.receive m).1 = st ∨ (st.receive m).1 = { st with shutdown_event := true } := by
  by_cases hv : m.jsonrpc = some JSON_RPC_VERSION
  · rcases hm : m.method with _ | method
    · left; simp [MCPServer.receive, hv, hm]
    · by_cases hi : method = "initialize"
      · left; simp [MCPServer.receive, hv, hm, hi]
      · by_cases hs : method = "shutdown"
        · right; simp [MCPServer.receive, hv, hm, hi, hs]
        · by_cases hn : (m.id.getD Value.null).isNull = false
          · rcases hl : st.request_handlers.lookup method with _ | handler
            · left; simp [MCPServer.receive, hv, hm, hi, hs, hn, hl]
            · rcases hh : handler (m.params.getD (.obj [])) with ⟨sent, out⟩
              rcases out with e | v
              · left; simp [MCPServer.receive, hv, hm, hi, hs, hn, hl, hh]
              · left; simp [MCPServer.receive, hv, hm, hi, hs, hn, hl, hh]
          · rcases hl : st.notification_handlers.lookup method with _ | handler
            · left; simp [MCPServer.receive, hv, hm, hi, hs, hn, hl]
            · left; simp [MCPServer.receive, hv, hm, hi, hs, hn, hl]
  · left; simp [MCPServer.receive, hv]

/-- Feeding `MCPClient.receive` a message whose id key holds a value
matching no pending entry leaves the client unchanged and settles
nothing. -/
theorem MCPClient.receive_unmatched_id (st : MCPClient) (m : Msg) (idv : Value)
    (hid : m.id = some idv)
    (hnp : ∀ n : Int, idv = .int n → n ∉ st.pending) :
    st.receive m = (st, []) := by
  by_cases hv : m.jsonrpc = some JSON_RPC_VERSION
  · rcases idv with _ | b | n | s | xs | fs <;>
      simp [MCPClient.receive, hv, hid]
    intro hmem
    exact absurd hmem (hnp n rfl)
  · simp [MCPClient.receive, hv]

/-- Each `connect`/`request` call allocates exactly the current
`next_id` and bumps the counter, so a run of such calls allocates the
consecutive ids starting at the initial counter value. -/
theorem MCPClient.runOps_ids (ops : List ClientOp) (st : MCPClient) :
    (st.runOps ops).2
      = (List.range ops.length).map (fun (k : Nat) => st.next_id + (k : Int)) := by
  induction ops generalizing st with
  | nil => rfl
  | cons op rest ih =>
    have hnext : ∀ (st : MCPClient),
        (match op with
          | .connectOp => st.connect
          | .requestOp method params => st.request method params).1.next_id = st.next_id + 1
        ∧ (match op with
          | .connectOp => st.connect
          | .requestOp method params => st.request method params).2.2 = st.next_id := by
      intro st
      cases op <;> simp [MCPClient.connect, MCPClient.request]
    simp only [MCPClient.runOps]
    rw [ih, (hnext st).2, (hnext st).1, List.length_cons, List.range_succ_eq_map]
    simp only [List.map_cons, List.map_map, Function.comp, Nat.cast_zero,
      add_zero, List.cons.injEq, List.length_cons]
    refine ⟨trivial, ?_⟩
    apply List.map_congr_left
    intro k _
    simp [Function.comp, Nat.succ_eq_add_one]
    ring

/-- Claim C1: after `MCPClient.request` registers its waiter, feeding
`MCPClient.receive` any protocol-versioned message bearing the same id
with a `result` field `R` settles that waiter with exactly `R`
(`fut.set_result(R)`), and one bearing an `error` field `E` settles it
with a failure carrying the whole error value `E` — and with it the
message of `E` — via `fut.set_exception(Exception(E))`, which surfaces
to the caller of `request` as a recoverable raised exception.  In both
cases the pending entry is removed, restoring the pending table. -/
theorem C1_request_then_receive (st : MCPClient) (method : String)
    (params R E : Value) (mr me : Msg)
    (hrv : mr.jsonrpc = some JSON_RPC_VERSION)
    (hri : mr.id = some (.int (st.request method params).2.2))
    (hrr : mr.result = some R)
    (hev : me.jsonrpc = some JSON_RPC_VERSION)
    (hei : me.id = some (.int (st.request method params).2.2))
    (her : me.result = none) (hee : me.error = some E) :
    (st.request method params).1.receive mr
      = ({ (st.request method params).1 with pending := st.pending },
         [.settledOk (st.request method params).2.2 R])
    ∧ (st.request method params).1.receive me
      = ({ (st.request method params).1 with pending := st.pending },
         [.settledErr (st.request method params).2.2 E]) := by
  refine ⟨?_, ?_⟩
  · simp [MCPClient.receive, MCPClient.request, hrv, hri, hrr]
  · simp [MCPClient.receive, MCPClient.request, hev, hei, her, hee]

/-- Witness for C1: a concrete client with one fresh request (id 1)
receives a result response and, in the error variant, an error
response. -/
theorem C1_witness :
    (MCPClient.receive ⟨"c", "1", Value.null, [1], 2⟩
        { jsonrpc := some JSON_RPC_VERSION, id := some (.int 1),
          result := some (.int 7) })
      = (⟨"c", "1", Value.null, [], 2⟩, [.settledOk 1 (.int 7)])
    ∧ (MCPClient.receive ⟨"c", "1", Value.null, [1], 2⟩
        { jsonrpc := some JSON_RPC_VERSION, id := some (.int 1),
          error := some (.str "boom") })
      = (⟨"c", "1", Value.null, [], 2⟩, [.settledErr 1 (.str "boom")]) := by
  have h := C1_request_then_receive (MCPClient.init "c" "1" Value.null) "foo"
    Value.null (.int 7) (.str "boom")
    { jsonrpc := some JSON_RPC_VERSION, id := some (.int 1), result := some (.int 7) }
    { jsonrpc := some JSON_RPC_VERSION, id := some (.int 1), error := some (.str "boom") }
    rfl rfl rfl rfl rfl rfl rfl
  exact ⟨h.1, h.2⟩

/-- Claim C2: for an inbound request (versioned message with a method
other than `initialize`/`shutdown` and a non-null id) on a responder
with a bound transport: with no registered handler the server sends the
`METHOD_NOT_FOUND` (-32601) error Response; with a registered handler
that raises `X` it sends, after whatever the handler itself sent, the
`INTERNAL_ERROR` (-32603) error Response whose message is exactly the
text of `X` (hence contains it); with a handler that returns a value it
sends a success Response carrying that value. -/
theorem C2_request_dispatch (st : MCPServer) (method : String) (reqId : Value)
    (m : Msg)
    (hv : m.jsonrpc = some JSON_RPC_VERSION)
    (hm : m.method = some method)
    (hid : m.id = some reqId)
    (hnn : reqId.isNull = false)
    (hni : method ≠ "initialize")
    (hns : method ≠ "shutdown")
    (hsend : st.send = some ()) :
    (st.request_handlers.lookup method = none →
      st.receive m = (st, [create_error_response reqId METHOD_NOT_FOUND
        ("Method " ++ squote ++ method ++ squote ++ " not found") .null]))
    ∧ (∀ handler sent e, st.request_handlers.lookup method = some handler →
        handler (m.params.getD (.obj [])) = (sent, .error e) →
        st.receive m = (st, sent ++
          [create_error_response reqId INTERNAL_ERROR e .null]))
    ∧ (∀ handler sent v, st.request_handlers.lookup method = some handler →
        handler (m.params.getD (.obj [])) = (sent, .ok v) →
        st.receive m = (st, sent ++ [create_response reqId v])) := by
  refine ⟨?_, ?_, ?_⟩
  · intro hl
    simp [MCPServer.receive, hv, hm, hid, hnn, hni, hns, hl,
      MCPServer.send_message, hsend]
  · intro handler sent e hl hh
    simp [MCPServer.receive, hv, hm, hid, hnn, hni, hns, hl, hh,
      MCPServer.send_message, hsend, MCPServer.sendAll_of_send_some st hsend]
  · intro handler sent v hl hh
    simp [MCPServer.receive, hv, hm, hid, hnn, hni, hns, hl, hh,
      MCPServer.send_message, hsend, MCPServer.sendAll_of_send_some st hsend]

/-- Witness for C2: a concrete responder with an echoing handler, a
raising handler, and nothing registered for the method "nope". -/
theorem C2_witness :
    (MCPServer.receive
        ⟨"s", "1", Value.null,
         [("echo", fun v => ([], .ok v)), ("boom", fun _ => ([], .error "boom"))],
         [], some (), false⟩
        { jsonrpc := some JSON_RPC_VERSION, id := some (.int 1),
          method := some "nope", params := some (.obj []) })
      = (⟨"s", "1", Value.null,
          [("echo", fun v => ([], .ok v)), ("boom", fun _ => ([], .error "boom"))],
          [], some (), false⟩,
         [create_error_response (.int 1) METHOD_NOT_FOUND
           ("Method " ++ squote ++ "nope" ++ squote ++ " not found") .null])
    ∧ (MCPServer.receive
        ⟨"s", "1", Value.null,
         [("echo", fun v => ([], .ok v)), ("boom", fun _ => ([], .error "boom"))],
         [], some (), false⟩
        { jsonrpc := some JSON_RPC_VERSION, id := some (.int 2),
          method := some "boom", params := some (.obj []) })
      = (⟨"s", "1", Value.null,
          [("echo", fun v => ([], .ok v)), ("boom", fun _ => ([], .error "boom"))],
          [], some (), false⟩,
         [create_error_response (.int 2) INTERNAL_ERROR "boom" .null])
    ∧ (MCPServer.receive
        ⟨"s", "1", Value.null,
         [("echo", fun v => ([], .ok v)), ("boom", fun _ => ([], .error "boom"))],
         [], some (), false⟩
        { jsonrpc := some JSON_RPC_VERSION, id := some (.int 3),
          method := some "echo", params := some (.obj [("x", .int 5)]) })
      = (⟨"s", "1", Value.null,
          [("echo", fun v => ([], .ok v)), ("boom", fun _ => ([], .error "boom"))],
          [], some (), false⟩,
         [create_response (.int 3) (.obj [("x", .int 5)])]) := by
  refine ⟨?_, ?_, ?_⟩
  · exact (C2_request_dispatch _ "nope" (.int 1) _ rfl rfl rfl rfl
      (by decide) (by decide) rfl).1 rfl
  · exact (C2_request_dispatch _ "boom" (.int 2) _ rfl rfl rfl rfl
      (by decide) (by decide) rfl).2.1 _ [] "boom" rfl rfl
  · exact (C2_request_dispatch _ "echo" (.int 3) _ rfl rfl rfl rfl
      (by decide) (by decide) rfl).2.2 _ [] (.obj [("x", .int 5)]) rfl rfl

/-- Claim C3: a versioned `shutdown` request on a responder with bound
transport is answered with the success Response
`{message: "Server shutting down"}` and then raises the shutdown flag;
the flag is monotonic — no `MCPServer` operation (handler registration,
`send_message`, or `receive` of any message) ever resets it — and a
second `shutdown` request is still answered successfully with the flag
remaining true. -/
theorem C3_shutdown_flag :
    (∀ (st : MCPServer) (reqId : Value) (m : Msg),
      m.jsonrpc = some JSON_RPC_VERSION → m.method = some "shutdown" →
      m.id = some reqId → st.send = some () →
      st.receive m = ({ st with shutdown_event := true },
        [create_response reqId (.obj [("message", .str "Server shutting down")])]))
    ∧ (∀ (st : MCPServer) (op : ServerOp),
        st.shutdown_event = true → (st.applyOp op).1.shutdown_event = true)
    ∧ (∀ (st : MCPServer) (reqId : Value) (m : Msg),
        st.shutdown_event = true →
        m.jsonrpc = some JSON_RPC_VERSION → m.method = some "shutdown" →
        m.id = some reqId → st.send = some () →
        st.receive m = (st,
          [create_response reqId (.obj [("message", .str "Server shutting down")])])) := by
  have hshut : ∀ (st : MCPServer) (reqId : Value) (m : Msg),
      m.jsonrpc = some JSON_RPC_VERSION → m.method = some "shutdown" →
      m.id = some reqId → st.send = some () →
      st.receive m = ({ st with shutdown_event := true },
        [create_response reqId (.obj [("message", .str "Server shutting down")])]) := by
    intro st reqId m hv hm hid hsend
    simp [MCPServer.receive, hv, hm, hid, MCPServer.send_message, hsend]
  refine ⟨hshut, ?_, ?_⟩
  · intro st op h
    cases op with
    | regReq method handler =>
      simpa [MCPServer.applyOp, MCPServer.register_request_handler] using h
    | regNote method handler =>
      simpa [MCPServer.applyOp, MCPServer.register_notification_handler] using h
    | recv m =>
      rcases MCPServer.receive_fst st m with h1 | h1 <;>
        simp [MCPServer.applyOp, h1, h]
    | sendMsg m => simpa [MCPServer.applyOp] using h
  · intro st reqId m h hv hm hid hsend
    have := hshut st reqId m hv hm hid hsend
    have hst : ({ st with shutdown_event := true } : MCPServer) = st := by
      cases st; simp_all
    rw [this, hst]

/-- Witness for C3: a concrete responder receives a first `shutdown`
request (flag raised, success Response), the monotonicity conjunct is
applied to a second `shutdown` on the flagged state, and the second
request is again answered successfully with the flag still true. -/
theorem C3_witness :
    (MCPServer.receive ⟨"s", "1", Value.null, [], [], some (), false⟩
        { jsonrpc := some JSON_RPC_VERSION, id := some (.int 1),
          method := some "shutdown", params := some (.obj []) })
      = (⟨"s", "1", Value.null, [], [], some (), true⟩,
         [create_response (.int 1) (.obj [("message", .str "Server shutting down")])])
    ∧ ((MCPServer.applyOp ⟨"s", "1", Value.null, [], [], some (), true⟩
        (.recv { jsonrpc := some JSON_RPC_VERSION, id := some (.int 2),
                 method := some "shutdown", params := some (.obj []) })).1.shutdown_event = true)
    ∧ (MCPServer.receive ⟨"s", "1", Value.null, [], [], some (), true⟩
        { jsonrpc := some JSON_RPC_VERSION, id := some (.int 2),
          method := some "shutdown", params := some (.obj []) })
      = (⟨"s", "1", Value.null, [], [], some (), true⟩,
         [create_response (.int 2) (.obj [("message", .str "Server shutting down")])]) := by
  refine ⟨?_, ?_, ?_⟩
  · exact C3_shutdown_flag.1 _ (.int 1) _ rfl rfl rfl rfl
  · exact C3_shutdown_flag.2.1 _ _ rfl
  · exact C3_shutdown_flag.2.2 _ (.int 2) _ rfl rfl rfl rfl rfl

/-- Claim C4: starting from a fresh `MCPClient`, any sequence of
`connect` and `request` calls allocates exactly the ids 1, 2, 3, ... in
order: the allocated ids are strictly increasing, start at 1, and no id
is ever reused for the lifetime of the instance. -/
theorem C4_ids_strictly_increasing (name version : String) (caps : Value)
    (ops : List ClientOp) :
    ((MCPClient.init name version caps).runOps ops).2
      = (List.range ops.length).map (fun (k : Nat) => (1 : Int) + k)
    ∧ List.Pairwise (· < ·) ((MCPClient.init name version caps).runOps ops).2 := by
  have h := MCPClient.runOps_ids ops (MCPClient.init name version caps)
  have h1 : (MCPClient.init name version caps).next_id = 1 := rfl
  rw [h1] at h
  refine ⟨h, ?_⟩
  rw [h, List.pairwise_map]
  exact (List.pairwise_lt_range ops.length).imp (by intro a b hab; omega)

/-- Claim C5: a message whose id key holds a value with no entry in the
pending table is discarded by `MCPClient.receive` without raising: the
client state — every pending entry included — is unchanged and no
waiter is settled. -/
theorem C5_stale_response_ignored (st : MCPClient) (m : Msg) (idv : Value)
    (hid : m.id = some idv)
    (hnp : ∀ n : Int, idv = .int n → n ∉ st.pending) :
    st.receive m = (st, []) :=
  MCPClient.receive_unmatched_id st m idv hid hnp

/-- Witness for C5: a client with pending id 1 receives a result
response for the unknown id 99 and is left untouched. -/
theorem C5_witness :
    MCPClient.receive ⟨"c", "1", Value.null, [1], 2⟩
      { jsonrpc := some JSON_RPC_VERSION, id := some (.int 99),
        result := some (.int 7) }
      = (⟨"c", "1", Value.null, [1], 2⟩, []) := by
  exact C5_stale_response_ignored _ _ (.int 99) rfl
    (by intro n hn hmem; cases hn; simp at hmem)

/-- Counterexample to claim C6 as stated: a message lacking method,
result and error but carrying an id with a pending entry is NOT a
no-op for `MCPClient.receive` — the pending entry for id 1 is removed
(the future is popped before the result/error check) even though no
waiter is settled, so the waiter can never be settled by its real
response. -/
theorem C6_counterexample :
    (MCPClient.receive ⟨"c", "1", Value.null, [1], 2⟩
      { jsonrpc := some JSON_RPC_VERSION, id := some (.int 1) }).1.pending = []
    ∧ (MCPClient.receive ⟨"c", "1", Value.null, [1], 2⟩
      { jsonrpc := some JSON_RPC_VERSION, id := some (.int 1) }).2 = []
    ∧ ((MCPClient.receive ⟨"c", "1", Value.null, [1], 2⟩
      { jsonrpc := some JSON_RPC_VERSION, id := some (.int 1) }).1
        ≠ (⟨"c", "1", Value.null, [1], 2⟩ : MCPClient)) := by
  refine ⟨rfl, rfl, ?_⟩
  intro h
  have := congrArg MCPClient.pending h
  simp [MCPClient.receive] at this

/-- Claim C6 as amended: a message lacking method, result and error is
silently discarded with all state unchanged by `MCPServer.receive`
always, and by `MCPClient.receive` provided the id it carries (if any)
has no pending entry; when the id does match a pending entry, the
client removes that entry without settling its waiter. -/
theorem C6_invalid_message_discarded :
    (∀ (st : MCPServer) (m : Msg), m.method = none → m.result = none →
      m.error = none → st.receive m = (st, []))
    ∧ (∀ (st : MCPClient) (m : Msg), m.method = none → m.result = none →
        m.error = none → (∀ n : Int, m.id = some (.int n) → n ∉ st.pending) →
        st.receive m = (st, []))
    ∧ (∀ (st : MCPClient) (m : Msg) (n : Int), m.method = none →
        m.result = none → m.error = none →
        m.jsonrpc = some JSON_RPC_VERSION → m.id = some (.int n) →
        n ∈ st.pending →
        st.receive m = ({ st with pending := st.pending.erase n }, [])) := by
  refine ⟨?_, ?_, ?_⟩
  · intro st m hm _ _
    by_cases hv : m.jsonrpc = some JSON_RPC_VERSION <;>
      simp [MCPServer.receive, hv, hm]
  · intro st m hm hr he hnp
    rcases hid : m.id with _ | idv
    · by_cases hv : m.jsonrpc = some JSON_RPC_VERSION <;>
        simp [MCPClient.receive, hv, hid, hm]
    · exact MCPClient.receive_unmatched_id st m idv hid (by
        intro n hn
        exact hnp n (hn ▸ hid))
  · intro st m n hm hr he hv hid hmem
    simp [MCPClient.receive, hv, hid, hmem, hr, he]

/-- Witness for C6 (amended): the server part on an id-only message,
the client part on an unknown id, and the pending-id part on a client
holding pending id 1. -/
theorem C6_witness :
    (MCPServer.receive ⟨"s", "1", Value.null, [], [], some (), false⟩
        { jsonrpc := some JSON_RPC_VERSION, id := some (.int 1) })
      = (⟨"s", "1", Value.null, [], [], some (), false⟩, [])
    ∧ (MCPClient.receive ⟨"c", "1", Value.null, [1], 2⟩
        { jsonrpc := some JSON_RPC_VERSION, id := some (.int 99) })
      = (⟨"c", "1", Value.null, [1], 2⟩, [])
    ∧ (MCPClient.receive ⟨"c", "1", Value.null, [1], 2⟩
        { jsonrpc := some JSON_RPC_VERSION, id := some (.int 1) })
      = (⟨"c", "1", Value.null, [], 2⟩, []) := by
  refine ⟨?_, ?_, ?_⟩
  · exact C6_invalid_message_discarded.1 _ _ rfl rfl rfl
  · exact C6_invalid_message_discarded.2.1 _ _ rfl rfl rfl
      (by intro n hn hmem; cases hn; simp at hmem)
  · exact C6_invalid_message_discarded.2.2 _ _ 1 rfl rfl rfl rfl rfl (by simp)

/-- Counterexample to claim C7 as stated: an `initialize` Notification
(method present, no id) IS answered by `MCPServer.receive` — the
built-in `initialize`/`shutdown` branches run before the id test, so a
Response with a null id is sent. -/
theorem C7_counterexample :
    (MCPServer.receive ⟨"s", "1", Value.null, [], [], some (), false⟩
        { jsonrpc := some JSON_RPC_VERSION, method := some "initialize" }).2
      = [create_response .null (.obj [("serverName", .str "s"),
          ("serverVersion", .str "1"), ("capabilities", .null)])]
    ∧ (MCPServer.receive ⟨"s", "1", Value.null, [], [], some (), false⟩
        { jsonrpc := some JSON_RPC_VERSION, method := some "initialize" }).2 ≠ [] := by
  refine ⟨rfl, ?_⟩
  simp [MCPServer.receive, MCPServer.send_message]

/-- Claim C7 as amended: for every inbound Notification whose method is
neither `initialize` nor `shutdown`, `MCPServer.receive` sends no
Response of its own — the state is unchanged and the only outbound
messages are the ones the registered notification handler itself passes
to `send_message` (nothing at all when no handler is registered);
`initialize` and `shutdown` messages, by contrast, are answered with a
Response even when the id is absent. -/
theorem C7_notification_no_reply (st : MCPServer) (m : Msg) (method : String)
    (hv : m.jsonrpc = some JSON_RPC_VERSION) (hm : m.method = some method)
    (hid : m.id = none) (hni : method ≠ "initialize")
    (hns : method ≠ "shutdown") :
    (st.receive m).1 = st
    ∧ (st.receive m).2 = (match st.notification_handlers.lookup method with
        | some handler => st.sendAll (handler (m.params.getD (.obj []))).1
        | none => []) := by
  rcases hl : st.notification_handlers.lookup method with _ | handler <;>
    simp [MCPServer.receive, Value.isNull, hv, hm, hid, hni, hns, hl]

/-- Witness for C7 (amended): a responder with a quiet notification
handler for "evt" receives an "evt" Notification; nothing is sent and
the state is unchanged. -/
theorem C7_witness :
    (MCPServer.receive
        ⟨"s", "1", Value.null, [], [("evt", fun _ => ([], .ok ()))], some (), false⟩
        { jsonrpc := some JSON_RPC_VERSION, method := some "evt",
          params := some (.obj []) }).1
      = (⟨"s", "1", Value.null, [], [("evt", fun _ => ([], .ok ()))], some (), false⟩ : MCPServer)
    ∧ (MCPServer.receive
        ⟨"s", "1", Value.null, [], [("evt", fun _ => ([], .ok ()))], some (), false⟩
        { jsonrpc := some JSON_RPC_VERSION, method := some "evt",
          params := some (.obj []) }).2
      = [] := by
  have h := C7_notification_no_reply
    ⟨"s", "1", Value.null, [], [("evt", fun _ => ([], .ok ()))], some (), false⟩
    { jsonrpc := some JSON_RPC_VERSION, method := some "evt",
      params := some (.obj []) } "evt" rfl rfl rfl (by decide) (by decide)
  exact ⟨h.1, h.2⟩

/-- Counterexample to claim C8 as stated: the notifications produced by
the built-in `stream_data` handler for stream id "s1", fed to the
initiator's dispatcher, yield 5 chunk events, not the claimed 3. -/
theorem C8_counterexample :
    ((MCPClient.init "example-client" "1.0.0" (.obj [("streaming", .bool true)])).processAll
        (stream_data_handler (.obj [("stream_id", .str "s1")])).1).2.countP ClientEvent.isChunk = 5
    ∧ ((MCPClient.init "example-client" "1.0.0" (.obj [("streaming", .bool true)])).processAll
        (stream_data_handler (.obj [("stream_id", .str "s1")])).1).2.countP ClientEvent.isChunk ≠ 3 := by
  refine ⟨rfl, ?_⟩
  decide

/-- Claim C8 as amended: invoking the responder's built-in
`stream_data` handler for stream id "s1" and feeding its outbound
notifications to any initiator's dispatcher yields exactly 5 chunk
events followed by exactly 1 completion event — the completion sent
once, after all chunks — every one of them carrying the token "s1",
with the client state untouched. -/
theorem C8_stream_events (st : MCPClient) :
    (st.processAll (stream_data_handler (.obj [("stream_id", .str "s1")])).1).2
      = [ClientEvent.chunk (.obj [("stream_id", .str "s1"), ("chunk", .str "Data chunk 1")]),
         ClientEvent.chunk (.obj [("stream_id", .str "s1"), ("chunk", .str "Data chunk 2")]),
         ClientEvent.chunk (.obj [("stream_id", .str "s1"), ("chunk", .str "Data chunk 3")]),
         ClientEvent.chunk (.obj [("stream_id", .str "s1"), ("chunk", .str "Data chunk 4")]),
         ClientEvent.chunk (.obj [("stream_id", .str "s1"), ("chunk", .str "Data chunk 5")]),
         ClientEvent.complete (.obj [("stream_id", .str "s1"), ("message", .str "Stream complete")])]
    ∧ (st.processAll (stream_data_handler (.obj [("stream_id", .str "s1")])).1).1 = st := by
  have hmsgs : (stream_data_handler (.obj [("stream_id", .str "s1")])).1
      = [create_notification "stream_data_chunk" (.obj [("stream_id", .str "s1"), ("chunk", .str "Data chunk 1")]),
         create_notification "stream_data_chunk" (.obj [("stream_id", .str "s1"), ("chunk", .str "Data chunk 2")]),
         create_notification "stream_data_chunk" (.obj [("stream_id", .str "s1"), ("chunk", .str "Data chunk 3")]),
         create_notification "stream_data_chunk" (.obj [("stream_id", .str "s1"), ("chunk", .str "Data chunk 4")]),
         create_notification "stream_data_chunk" (.obj [("stream_id", .str "s1"), ("chunk", .str "Data chunk 5")]),
         create_notification "stream_complete" (.obj [("stream_id", .str "s1"), ("message", .str "Stream complete")])] := by
    rfl
  rw [hmsgs]
  constructor <;>
    simp [MCPClient.processAll, MCPClient.receive, create_notification,
      JSON_RPC_VERSION, Value.getD]

/-- Claim C9: the transport receive loop enqueues exactly the
successfully decoded frames in their original order (`filterMap`); a
frame that fails to decode is dropped without terminating the loop, and
every later well-formed frame is still decoded and enqueued. -/
theorem C9_receive_loop_drops_bad_frames (decode : String → Option Value)
    (frames : List String) :
    receive_loop decode frames = frames.filterMap decode
    ∧ ∀ (pre : List String) (bad : String) (post : List String),
        decode bad = none →
        receive_loop decode (pre ++ bad :: post) = receive_loop decode (pre ++ post) := by
  have hfm : ∀ fs : List String, receive_loop decode fs = fs.filterMap decode := by
    intro fs
    induction fs with
    | nil => rfl
    | cons f rest ih =>
      rcases hd : decode f with _ | v <;>
        simp [receive_loop, hd, ih, List.filterMap_cons]
  refine ⟨hfm frames, ?_⟩
  intro pre bad post hbad
  simp [hfm, List.filterMap_append, List.filterMap_cons, hbad]

/-- Witness for C9: a concrete decoder that rejects the frame "bad"
dropping it while both surrounding frames are enqueued in order. -/
theorem C9_witness :
    receive_loop (fun s => if s = "bad" then none else some (.str s)) ["a", "bad", "b"]
      = (["a", "bad", "b"].filterMap (fun s => if s = "bad" then none else some (.str s)))
    ∧ receive_loop (fun s => if s = "bad" then none else some (.str s)) (["a"] ++ "bad" :: ["b"])
      = receive_loop (fun s => if s = "bad" then none else some (.str s)) (["a"] ++ ["b"]) := by
  refine ⟨(C9_receive_loop_drops_bad_frames _ _).1, ?_⟩
  exact (C9_receive_loop_drops_bad_frames _ ["a", "bad", "b"]).2 ["a"] "bad" ["b"] rfl

/-- Claim C10: while no transport is bound (`send` is `None`),
`MCPServer.send_message` is a silent no-op and `MCPServer.receive` on
any message completes without sending anything: every reply-producing
branch goes through the guarded `send_message`, so the absent send
function is never dereferenced. -/
theorem C10_unbound_send_silent (st : MCPServer) (m : Msg) (h : st.send = none) :
    st.send_message m = [] ∧ (st.receive m).2 = [] := by
  constructor
  · simp [MCPServer.send_message, h]
  · by_cases hv : m.jsonrpc = some JSON_RPC_VERSION
    · rcases hm : m.method with _ | method
      · simp [MCPServer.receive, hv, hm]
      · by_cases hi : method = "initialize"
        · simp [MCPServer.receive, hv, hm, hi, MCPServer.send_message, h]
        · by_cases hs : method = "shutdown"
          · simp [MCPServer.receive, hv, hm, hi, hs, MCPServer.send_message, h]
          · by_cases hn : (m.id.getD Value.null).isNull = false
            · rcases hl : st.request_handlers.lookup method with _ | handler
              · simp [MCPServer.receive, hv, hm, hi, hs, hn, hl,
                  MCPServer.send_message, h]
              · rcases hh : handler (m.params.getD (.obj [])) with ⟨sent, out⟩
                rcases out with e | v <;>
                  simp [MCPServer.receive, hv, hm, hi, hs, hn, hl, hh,
                    MCPServer.send_message, h, MCPServer.sendAll_of_send_none st h]
            · rcases hl : st.notification_handlers.lookup method with _ | handler <;>
                simp [MCPServer.receive, hv, hm, hi, hs, hn, hl,
                  MCPServer.sendAll_of_send_none st h]
    · simp [MCPServer.receive, hv]

/-- Witness for C10: an unbound responder fed an `initialize` request
sends nothing, and its `send_message` is a no-op. -/
theorem C10_witness :
    MCPServer.send_message ⟨"s", "1", Value.null, [], [], none, false⟩
      (create_response (.int 1) (.obj [])) = []
    ∧ (MCPServer.receive ⟨"s", "1", Value.null, [], [], none, false⟩
        { jsonrpc := some JSON_RPC_VERSION, id := some (.int 1),
          method := some "initialize", params := some (.obj []) }).2 = [] := by
  have h := C10_unbound_send_silent ⟨"s", "1", Value.null, [], [], none, false⟩
    { jsonrpc := some JSON_RPC_VERSION, id := some (.int 1),
      method := some "initialize", params := some (.obj []) } rfl
  exact ⟨rfl, h.2⟩
